import Mathlib

/-!
Formal model of the bulk file-upload pipeline of the data-up-server
repository, together with proofs of the behavioural properties claimed
for it.

The model is a shallow embedding of the TypeScript source:

* `src/services/storage/local-storage.provider.ts` — the local storage
  backend (`upload`, `delete`, path generation) is modelled over an
  explicit filesystem state `ContentFS` mapping full paths to byte
  contents.  The SHA-256 digest used for path and checksum generation is
  an explicit function parameter `hash : String → String` (the code calls
  `node:crypto`); byte streams are modelled by `UploadStream`, which
  either delivers its whole content or errors after a written prefix.
* `src/services/file-upload.service.ts` — `FileUploadService.uploadFile`
  and `validateFileType`.
* `src/services/storage/storage-provider.interface.ts` — the
  module-level singleton `storageInstance` with `createStorageProvider`
  and `getStorageProvider`, modelled by explicit state passing of
  `Option ProviderInst`.
* `src/http/routes/files/create-multiple-files.ts` — the multipart bulk
  upload handler: part collection, per-part admission
  (`enforceFileCountLimit`, `handleFilePart`), field validation,
  validation-failure cleanup and per-item persistence, modelled as a
  state-passing function over storage and database state; and a timed
  model of `createUploadTaskFromPart`, which records when each storage
  write starts, when it completes and when its gated wrapper promise
  settles.

Environmental behaviour (stream errors, storage-write latencies, database
insert failures) is supplied by explicit parameters on the modelled
inputs, so every definition is executable and every concrete run can be
evaluated by `decide`.
-/

/-! ## String helpers (node:path `extname`, `padStart`, substrings) -/

/-- Characters of a string; `String.mk`/`String.data` bridging lemma used
throughout: concatenation of strings is concatenation of their character
lists. -/
theorem strData_append (a b : String) : (a ++ b).data = a.data ++ b.data := by
  cases a
  cases b
  rfl

/-- First `n` characters of a string (JS `String.prototype.substring(0, n)`
on ASCII data such as a hex digest). -/
def takeChars (n : Nat) (s : String) : String :=
  String.mk (s.data.take n)

/-- Index of the last occurrence of a character in a character list. -/
def lastIndexOfChar (c : Char) : List Char → Option Nat
  | [] => none
  | h :: t =>
    match lastIndexOfChar c t with
    | some i => some (i + 1)
    | none => if h == c then some 0 else none

/-- Drop everything up to and including the last path separator. -/
def afterLastSlash (cs : List Char) : List Char :=
  match lastIndexOfChar '/' cs with
  | some i => cs.drop (i + 1)
  | none => cs

/-- Model of node:path `extname`: the suffix of the base name starting at
its last dot, empty when there is no dot or the dot is the first
character of the base name. -/
def extname (p : String) : String :=
  let base := afterLastSlash p.data
  match lastIndexOfChar '.' base with
  | none => ""
  | some i => if i == 0 then "" else String.mk (base.drop i)

/-- Model of JS `String(n).padStart(2, '0')` for the month/day fields. -/
def pad2 (n : Nat) : String :=
  if n < 10 then "0" ++ toString n else toString n

/-- Bool test of one list being a prefix of another, used for the
mime-type wildcard check (`String.prototype.startsWith`). -/
def charsPrefix : List Char → List Char → Bool
  | [], _ => true
  | _ :: _, [] => false
  | a :: as, b :: bs => a == b && charsPrefix as bs

/-- Model of JS `String.prototype.startsWith`. -/
def strStartsWith (s pre : String) : Bool :=
  charsPrefix pre.data s.data

/-- Model of JS `String.prototype.endsWith`. -/
def strEndsWith (s suf : String) : Bool :=
  charsPrefix suf.data.reverse s.data.reverse

/-- Model of JS `String.prototype.slice(0, -n)`: drop the last `n`
characters. -/
def dropRightChars (n : Nat) (s : String) : String :=
  String.mk (s.data.take (s.data.length - n))

/-! ## Local storage provider (`local-storage.provider.ts`) -/

/-- Filesystem state: full path to byte content (set semantics per
path — a write replaces any earlier content at the same path). -/
abbrev ContentFS := List (String × List Nat)

/-- Write a file, replacing existing content at the path
(`createWriteStream` followed by piping). -/
def writeC (fs : ContentFS) (p : String) (c : List Nat) : ContentFS :=
  (p, c) :: fs.filter (fun e => !(e.1 == p))

/-- Content stored at a path, if any. -/
def lookupC (fs : ContentFS) (p : String) : Option (List Nat) :=
  (fs.find? (fun e => e.1 == p)).map (fun e => e.2)

/-- Model of `fs.existsSync` / successful `access`. -/
def existsC (fs : ContentFS) (p : String) : Bool :=
  fs.any (fun e => e.1 == p)

/-- Remove a path from the filesystem (successful `unlink`). -/
def unlinkC (fs : ContentFS) (p : String) : ContentFS :=
  fs.filter (fun e => !(e.1 == p))

/-- Filesystem error codes surfaced by `unlink`. -/
inductive FsError
  | ENOENT
  | other (msg : String)
deriving DecidableEq, Repr

/-- Model of `node:fs/promises` `unlink`: fails with `ENOENT` when the
path does not exist. -/
def unlinkFs (fs : ContentFS) (p : String) : Except FsError ContentFS :=
  if existsC fs p then Except.ok (unlinkC fs p) else Except.error FsError.ENOENT

/-- Behaviour of the uploaded byte stream as seen by the write pipeline:
either the full content arrives, or the stream errors after a prefix has
already been written. -/
inductive UploadStream
  | ok (content : List Nat)
  | failMid (pre : List Nat)
deriving DecidableEq, Repr

/-- Result record of `StorageProvider.upload`
(`storage-provider.interface.ts` `UploadResult`). -/
structure StorageUploadResult where
  storagePath : String
  size : Nat
  mimeType : String
  originalName : String
deriving DecidableEq, Repr

/-- Input to the digest used in the generated file name:
`${fileName}_${timestamp}` from `LocalStorageProvider.upload`. -/
def hashInput (fileName : String) (timestamp : Nat) : String :=
  fileName ++ "_" ++ toString timestamp

/-- The generated unique file name of `LocalStorageProvider.upload`:
`${timestamp}_${sha256(fileName_timestamp).hex.substring(0,16)}${extname(fileName)}`. -/
def uniqueFileName (hash : String → String) (fileName : String) (timestamp : Nat) : String :=
  toString timestamp ++ "_" ++ takeChars 16 (hash (hashInput fileName timestamp)) ++
    extname fileName

/-- The date-partitioned subdirectory `YYYY/MM/DD` (month is 1-based,
as after the code's `getMonth() + 1`). -/
def subDirOf (year month day : Nat) : String :=
  toString year ++ "/" ++ pad2 month ++ "/" ++ pad2 day

/-- The storage path returned by `upload`: `subDir/uniqueFileName`. -/
def uploadStoragePath (hash : String → String) (year month day ts : Nat)
    (fileName : String) : String :=
  subDirOf year month day ++ "/" ++ uniqueFileName hash fileName ts

/-- Full on-disk path: `join(uploadsDir, storagePath)`. -/
def uploadFullPath (uploadsDir storagePath : String) : String :=
  uploadsDir ++ "/" ++ storagePath

/-- Model of `LocalStorageProvider.upload`.  The write pipeline persists
the stream's bytes at the generated path; `statSync` then reports the
size of what was actually written.  On a pipeline error the partial file
is removed (`existsSync` check then `unlink`) before the error is
rethrown.  The caller-declared `declaredSize` argument (`_size` in the
source) is never consulted. -/
def localUpload (hash : String → String) (uploadsDir : String)
    (year month day ts : Nat) (fs : ContentFS) (stream : UploadStream)
    (fileName mimeType : String) (declaredSize : Nat) :
    Except String StorageUploadResult × ContentFS :=
  let sp := uploadStoragePath hash year month day ts fileName
  let fp := uploadFullPath uploadsDir sp
  match stream with
  | UploadStream.ok content =>
    let fs1 := writeC fs fp content
    (Except.ok (StorageUploadResult.mk sp content.length mimeType fileName), fs1)
  | UploadStream.failMid pre =>
    let fs1 := writeC fs fp pre
    let fs2 := if existsC fs1 fp then unlinkC fs1 fp else fs1
    (Except.error "Erro durante o upload do arquivo", fs2)

/-- Model of `LocalStorageProvider.delete`: `unlink` the joined path,
swallowing `ENOENT` (a missing file is treated as already deleted),
rethrowing any other error code. -/
def localDelete (uploadsDir : String) (fs : ContentFS) (storagePath : String) :
    Except FsError ContentFS :=
  match unlinkFs fs (uploadFullPath uploadsDir storagePath) with
  | Except.ok fs2 => Except.ok fs2
  | Except.error e =>
    if e == FsError.ENOENT then Except.ok fs else Except.error e

/-- Project the storage path out of an upload result. -/
def storagePathOfResult : Except String StorageUploadResult → Option String
  | Except.ok r => some r.storagePath
  | Except.error _ => none

/-! ## File upload service (`file-upload.service.ts`) -/

/-- Result of `FileUploadService.uploadFile`: the provider result plus
the derived checksum token. -/
structure ServiceUploadResult where
  storagePath : String
  size : Nat
  mimeType : String
  originalName : String
  checksum : String
deriving DecidableEq, Repr

/-- Model of `FileUploadService.uploadFile`: rejects an empty file name
or mime type, delegates to the storage provider with a declared size of
`0`, then stamps the result with
`sha256(${filename}_${size}_${Date.now()})` — the checksum input is the
file name, the persisted size and the current time, never the content
bytes.  `now` models `Date.now()` at checksum time. -/
def serviceUploadFile (hash : String → String) (uploadsDir : String)
    (year month day ts now : Nat) (fs : ContentFS) (stream : UploadStream)
    (filename mimetype : String) : Except String ServiceUploadResult × ContentFS :=
  if filename == "" then (Except.error "Nome do arquivo é obrigatório", fs)
  else if mimetype == "" then (Except.error "Tipo do arquivo é obrigatório", fs)
  else
    match localUpload hash uploadsDir year month day ts fs stream filename mimetype 0 with
    | (Except.ok r, fs1) =>
      (Except.ok
        (ServiceUploadResult.mk r.storagePath r.size r.mimeType r.originalName
          (hash (filename ++ "_" ++ toString r.size ++ "_" ++ toString now))), fs1)
    | (Except.error e, fs1) => (Except.error e, fs1)

/-- Project the checksum out of a service upload result. -/
def checksumOfResult : Except String ServiceUploadResult → Option String
  | Except.ok r => some r.checksum
  | Except.error _ => none

/-- Model of `FileUploadService.validateFileType`: an empty allow-list
permits everything; an entry ending in `/*` matches when the mime type
starts with the entry minus its final two characters (the source slices
off `/*` and uses `startsWith`); otherwise exact equality. -/
def validateFileType (mimeType : String) (allowedTypes : List String) : Bool :=
  if allowedTypes.isEmpty then true
  else
    allowedTypes.any (fun t =>
      if strEndsWith t "/*" then strStartsWith mimeType (dropRightChars 2 t)
      else mimeType == t)

/-- The allow-list used by the bulk upload route (`ALLOWED_FILE_TYPES`,
as declared in the files route module). -/
def ALLOWED_FILE_TYPES : List String :=
  ["image/jpeg", "image/png", "image/gif", "image/webp", "application/pdf",
   "text/plain", "text/html", "application/msword",
   "application/vnd.openxmlformats-officedocument.wordprocessingml.document",
   "application/vnd.ms-excel",
   "application/vnd.openxmlformats-officedocument.spreadsheetml.sheet"]

/-! ## Supporting lemmas on the filesystem model -/

/-- A freshly written path exists. -/
theorem existsC_writeC_self (fs : ContentFS) (p : String) (c : List Nat) :
    existsC (writeC fs p c) p = true := by
  simp [existsC, writeC]

/-- After `unlink`, the path no longer exists. -/
theorem existsC_unlinkC_self (fs : ContentFS) (p : String) :
    existsC (unlinkC fs p) p = false := by
  induction fs with
  | nil => rfl
  | cons e rest ih =>
    by_cases h : e.1 = p
    · simpa [existsC, unlinkC, h] using ih
    · simpa [existsC, unlinkC, h] using ih

/-- A freshly written path holds exactly the written content. -/
theorem lookupC_writeC_self (fs : ContentFS) (p : String) (c : List Nat) :
    lookupC (writeC fs p c) p = some c := by
  simp [lookupC, writeC, List.find?]

/-! ## Claim C5 — no partial file survives a failed store -/

/-- Claim C5: if the stream errors mid-copy, `LocalStorageProvider.upload`
returns the error and the partially written file has been removed: the
generated path does not exist in the resulting filesystem. -/
theorem C5_partial_write_cleanup (hash : String → String) (dir : String)
    (year month day ts : Nat) (fs : ContentFS) (pre : List Nat)
    (fileName mimeType : String) (declaredSize : Nat) :
    (localUpload hash dir year month day ts fs (UploadStream.failMid pre)
        fileName mimeType declaredSize).1 =
      Except.error "Erro durante o upload do arquivo" ∧
    existsC
      (localUpload hash dir year month day ts fs (UploadStream.failMid pre)
        fileName mimeType declaredSize).2
      (uploadFullPath dir (uploadStoragePath hash year month day ts fileName)) = false := by
  constructor
  · rfl
  · simp only [localUpload]
    rw [existsC_writeC_self]
    simp only [if_true]
    exact existsC_unlinkC_self _ _

/-! ## Claim C6 — delete is idempotent -/

/-- Claim C6: `LocalStorageProvider.delete` never errors on a missing
path (a never-written path leaves the filesystem unchanged), and after a
first delete a second delete of the same path succeeds without change. -/
theorem C6_delete_idempotent (dir : String) (fs : ContentFS) (p : String) :
    (existsC fs (uploadFullPath dir p) = false →
      localDelete dir fs p = Except.ok fs) ∧
    ∃ fs2, localDelete dir fs p = Except.ok fs2 ∧
      localDelete dir fs2 p = Except.ok fs2 := by
  constructor
  · intro h
    simp [localDelete, unlinkFs, h]
  · by_cases h : existsC fs (uploadFullPath dir p) = true
    · refine ⟨unlinkC fs (uploadFullPath dir p), ?_, ?_⟩
      · simp [localDelete, unlinkFs, h]
      · simp [localDelete, unlinkFs, existsC_unlinkC_self]
    · have h' : existsC fs (uploadFullPath dir p) = false := by
        simpa using h
      exact ⟨fs, by simp [localDelete, unlinkFs, h'], by simp [localDelete, unlinkFs, h']⟩

/-- Witness for C6 at concrete inputs: deleting a never-written path from
an empty filesystem succeeds, and deleting a written path twice succeeds. -/
theorem C6_delete_idempotent_witness :
    localDelete "uploads" ([] : ContentFS) "x" = Except.ok ([] : ContentFS) ∧
    ∃ fs2, localDelete "uploads" ([("uploads/x", [1])] : ContentFS) "x" = Except.ok fs2 ∧
      localDelete "uploads" fs2 "x" = Except.ok fs2 :=
  ⟨(C6_delete_idempotent "uploads" [] "x").1 (by decide),
   (C6_delete_idempotent "uploads" [("uploads/x", [1])] "x").2⟩

/-! ## Claim C9 — returned size is the actual persisted size -/

/-- Claim C9: a successful store returns a size equal to the number of
bytes actually persisted at the generated path (measured after the
stream is drained), whatever size the caller declared. -/
theorem C9_actual_size_returned (hash : String → String) (dir : String)
    (year month day ts : Nat) (fs : ContentFS) (content : List Nat)
    (fileName mimeType : String) (declaredSize : Nat) :
    (localUpload hash dir year month day ts fs (UploadStream.ok content)
        fileName mimeType declaredSize).1 =
      Except.ok
        (StorageUploadResult.mk (uploadStoragePath hash year month day ts fileName)
          content.length mimeType fileName) ∧
    lookupC
      (localUpload hash dir year month day ts fs (UploadStream.ok content)
        fileName mimeType declaredSize).2
      (uploadFullPath dir (uploadStoragePath hash year month day ts fileName)) =
      some content :=
  ⟨rfl, lookupC_writeC_self _ _ _⟩

/-! ## Claim C8 — path generation versus the caller-supplied name -/

/-- Counterexample to claim C8: two `upload` calls identical in every
input except the file name produce different storage paths, even with a
digest function that collides on every input — the generated path embeds
the file name's extension. -/
theorem C8_counterexample_same_inputs_different_name :
    storagePathOfResult
        (localUpload (fun _ => "0000000000000000") "uploads" 2026 1 2 99 []
          (UploadStream.ok [1]) "a.txt" "text/plain" 0).1 ≠
      storagePathOfResult
        (localUpload (fun _ => "0000000000000000") "uploads" 2026 1 2 99 []
          (UploadStream.ok [1]) "a.png" "text/plain" 0).1 := by
  decide

/-- Amended C8: the generated storage path depends on the caller-supplied
file name — it embeds the name's extension (and a digest of the name and
timestamp).  Whenever the digest yields at least 16 characters (as a
SHA-256 hex digest always does), two calls identical in every input
except file names with different extensions produce different storage
paths. -/
theorem C8_path_depends_on_extension (hash : String → String)
    (year month day ts : Nat) (n1 n2 : String)
    (h1 : 16 ≤ (hash (hashInput n1 ts)).length)
    (h2 : 16 ≤ (hash (hashInput n2 ts)).length)
    (hext : extname n1 ≠ extname n2) :
    uploadStoragePath hash year month day ts n1 ≠
      uploadStoragePath hash year month day ts n2 := by
  intro heq
  apply hext
  have hd := congrArg String.data heq
  simp only [uploadStoragePath, uniqueFileName, strData_append, List.append_assoc] at hd
  have hd2 := List.append_cancel_left hd
  have hd3 := List.append_cancel_left hd2
  have hd4 := List.append_cancel_left hd3
  have hd5 := List.append_cancel_left hd4
  have h1d : 16 ≤ (hash (hashInput n1 ts)).data.length := h1
  have h2d : 16 ≤ (hash (hashInput n2 ts)).data.length := h2
  have hlen : (takeChars 16 (hash (hashInput n1 ts))).data.length =
      (takeChars 16 (hash (hashInput n2 ts))).data.length := by
    show ((hash (hashInput n1 ts)).data.take 16).length =
      ((hash (hashInput n2 ts)).data.take 16).length
    rw [List.length_take, List.length_take]
    omega
  exact String.ext (List.append_inj hd5 hlen).2

/-- Witness for the amended C8 at concrete inputs: with a constant
16-character digest, the names `b.txt` and `b.pdf` yield different
storage paths. -/
theorem C8_path_depends_on_extension_witness :
    uploadStoragePath (fun _ => "abcdefabcdefabcd") 2026 3 4 7 "b.txt" ≠
      uploadStoragePath (fun _ => "abcdefabcdefabcd") 2026 3 4 7 "b.pdf" :=
  C8_path_depends_on_extension (fun _ => "abcdefabcdefabcd") 2026 3 4 7 "b.txt" "b.pdf"
    (by decide) (by decide) (by decide)

/-! ## Claim C7 — checksum is content-independent -/

/-- Claim C7: the checksum stamped by `FileUploadService.uploadFile` is
derived from the file name, the persisted byte size and the current
time only.  Two uploads with the same name, mime type and timestamps
whose contents have the same length (hence the same persisted size)
receive the same checksum, regardless of the content bytes. -/
theorem C7_checksum_content_independent (hash : String → String)
    (dir : String) (year month day ts now : Nat) (fs : ContentFS)
    (filename mimetype : String) (c1 c2 : List Nat)
    (hlen : c1.length = c2.length) :
    checksumOfResult
        (serviceUploadFile hash dir year month day ts now fs (UploadStream.ok c1)
          filename mimetype).1 =
      checksumOfResult
        (serviceUploadFile hash dir year month day ts now fs (UploadStream.ok c2)
          filename mimetype).1 := by
  by_cases hf : (filename == "") = true
  · simp [serviceUploadFile, hf]
  · by_cases hm : (mimetype == "") = true
    · simp [serviceUploadFile, hf, hm]
    · simp [serviceUploadFile, hf, hm, localUpload, checksumOfResult, hlen]

/-- Witness for C7 at concrete inputs: contents `[1, 2]` and `[9, 9]` of
equal length receive the same checksum. -/
theorem C7_checksum_content_independent_witness :
    checksumOfResult
        (serviceUploadFile (fun s => s) "uploads" 2026 1 2 5 6 []
          (UploadStream.ok [1, 2]) "a.png" "image/png").1 =
      checksumOfResult
        (serviceUploadFile (fun s => s) "uploads" 2026 1 2 5 6 []
          (UploadStream.ok [9, 9]) "a.png" "image/png").1 :=
  C7_checksum_content_independent (fun s => s) "uploads" 2026 1 2 5 6 []
    "a.png" "image/png" [1, 2] [9, 9] (by decide)

/-! ## Storage factory singleton (`storage.factory.ts`) -/

/-- A constructed storage provider instance: the local provider carries
its constructor arguments, the S3 provider is a stub. -/
inductive ProviderInst
  | localP (uploadsDir baseUrl : String)
  | s3P
deriving DecidableEq, Repr

/-- Local configuration block of `StorageConfig`. -/
structure LocalCfg where
  uploadsDir : String
  baseUrl : String
deriving DecidableEq, Repr

/-- S3 configuration block of `StorageConfig` (contents irrelevant to the
factory logic beyond presence). -/
structure S3Cfg where
  bucketName : String
  region : String
  accessKeyId : String
  secretAccessKey : String
  endpoint : Option String
deriving DecidableEq, Repr

/-- The `StorageType` union. -/
inductive StorageType
  | localT
  | s3T
deriving DecidableEq, Repr

/-- The `StorageConfig` argument of `createStorageProvider`. -/
structure StorageConfig where
  type : StorageType
  localCfg : Option LocalCfg
  s3Cfg : Option S3Cfg
deriving DecidableEq, Repr

/-- The fallback local configuration built inside `createStorageProvider`
when `config.local` is absent: `join(process.cwd(), 'uploads')` and
`http://localhost:PORT`.  `cwd` and `port` model the process environment. -/
def defaultLocalCfg (cwd : String) (port : Nat) : LocalCfg :=
  LocalCfg.mk (cwd ++ "/uploads") ("http://localhost:" ++ toString port)

/-- Model of `createStorageProvider`.  The module-level mutable
`storageInstance` is passed and returned explicitly: when an instance
already exists it is returned unchanged and the config argument is never
inspected; otherwise an instance is constructed according to the config
(an S3 request without an S3 block throws and leaves the instance
unset). -/
def createStorageProvider (cwd : String) (port : Nat) (config : StorageConfig)
    (storageInstance : Option ProviderInst) :
    Except String ProviderInst × Option ProviderInst :=
  match storageInstance with
  | some inst => (Except.ok inst, some inst)
  | none =>
    match config.type with
    | StorageType.localT =>
      let lc := config.localCfg.getD (defaultLocalCfg cwd port)
      let inst := ProviderInst.localP lc.uploadsDir lc.baseUrl
      (Except.ok inst, some inst)
    | StorageType.s3T =>
      match config.s3Cfg with
      | none => (Except.error "S3 configuration is required when using S3 storage", none)
      | some _ => (Except.ok ProviderInst.s3P, some ProviderInst.s3P)

/-- Model of `getStorageProvider`: returns the existing instance, or
constructs the default local provider via `createStorageProvider` when
none exists yet. -/
def getStorageProvider (cwd : String) (port : Nat)
    (storageInstance : Option ProviderInst) :
    Except String ProviderInst × Option ProviderInst :=
  match storageInstance with
  | some inst => (Except.ok inst, some inst)
  | none => createStorageProvider cwd port (StorageConfig.mk StorageType.localT none none) none

/-! ## Claim C10 — process-wide singleton -/

/-- Claim C10: once an instance exists, `createStorageProvider` returns
it unchanged for every config argument (the config is ignored), and
`getStorageProvider` constructs the default local provider exactly when
no instance exists yet, returning the existing instance otherwise. -/
theorem C10_storage_singleton (cwd : String) (port : Nat) :
    (∀ (config : StorageConfig) (inst : ProviderInst),
      createStorageProvider cwd port config (some inst) = (Except.ok inst, some inst)) ∧
    getStorageProvider cwd port none =
      (Except.ok (ProviderInst.localP (cwd ++ "/uploads")
          ("http://localhost:" ++ toString port)),
        some (ProviderInst.localP (cwd ++ "/uploads")
          ("http://localhost:" ++ toString port))) ∧
    (∀ inst : ProviderInst,
      getStorageProvider cwd port (some inst) = (Except.ok inst, some inst)) :=
  ⟨fun _ _ => rfl, rfl, fun _ => rfl⟩

/-! ## Multipart bulk upload handler (`create-multiple-files.ts`) -/

/-- One file part of the multipart request, together with the
environmental behaviour of its processing: `filename` is `none` when the
transport supplies no file name (JS `undefined`); `truncated` is the
transport's over-size flag; `arrival` is the instant the wire decoder
yields the part (parts arrive in list order); `duration` is the latency
of its storage write, so the write occupies the interval from its start
to start plus duration and its upload promise settles then; `uploadOk`
says whether the storage write succeeds; `genPath` is the storage path
the provider generates for it and `genSize` the persisted size; `dbOk`
says whether the later database insert succeeds. -/
structure FilePart where
  filename : Option String
  mimetype : String
  truncated : Bool
  arrival : Nat
  duration : Nat
  uploadOk : Bool
  genPath : String
  genSize : Nat
  dbOk : Bool
deriving DecidableEq, Repr

/-- One part of the multipart stream: a plain form field or a file. -/
inductive ReqPart
  | field (fieldname value : String)
  | file (f : FilePart)
deriving DecidableEq, Repr

/-- JS truthiness of `part.filename`: false for `undefined` and for the
empty string. -/
def hasName (f : FilePart) : Bool :=
  match f.filename with
  | none => false
  | some s => !(s == "")

/-- The display name used by `enforceFileCountLimit`
(`part.filename ?? 'arquivo'` — nullish coalescing, so an empty string
is kept). -/
def nameOrDefault (f : FilePart) : String :=
  f.filename.getD "arquivo"

/-- The file name at points where it is known to be present. -/
def fnameOf (f : FilePart) : String :=
  f.filename.getD ""

/-- How the collection loop treats one file part, given the number of
files admitted so far: `enforceFileCountLimit` rejects everything at or
beyond the 10-file cap (before any look at the file name); then
`handleFilePart` silently drops a nameless part, rejects a truncated
part or a disallowed mime type with a per-item error, and otherwise
admits the part (starting its upload at once). -/
inductive Admission
  | limited (msg : String)
  | dropped
  | rejected (msg : String)
  | admitted
deriving DecidableEq, Repr

/-- The admission decision of the collection loop for one file part. -/
def classifyFilePart (fileCount : Nat) (f : FilePart) : Admission :=
  if 10 ≤ fileCount then
    Admission.limited (nameOrDefault f ++ ": Limite de 10 arquivos por requisição atingido")
  else if !(hasName f) then Admission.dropped
  else if f.truncated then
    Admission.rejected (fnameOf f ++ ": Arquivo excedeu o limite de 10MB")
  else if !(validateFileType f.mimetype ALLOWED_FILE_TYPES) then
    Admission.rejected (fnameOf f ++ ": Tipo de arquivo não suportado: " ++ f.mimetype)
  else Admission.admitted

/-- The admitted upload tasks and the immediate per-item errors produced
by `collectMultipartParts`, in arrival order. -/
def collectGo (fileCount : Nat) : List ReqPart → List FilePart × List String
  | [] => ([], [])
  | ReqPart.field _ _ :: rest => collectGo fileCount rest
  | ReqPart.file f :: rest =>
    match classifyFilePart fileCount f with
    | Admission.limited msg =>
      let r := collectGo fileCount rest
      (r.1, msg :: r.2)
    | Admission.dropped => collectGo fileCount rest
    | Admission.rejected msg =>
      let r := collectGo fileCount rest
      (r.1, msg :: r.2)
    | Admission.admitted =>
      let r := collectGo (fileCount + 1) rest
      (f :: r.1, r.2)

/-- Last-write-wins update of the accumulated form-field map
(`data[part.fieldname] = part.value`). -/
def setField (d : List (String × String)) (k v : String) : List (String × String) :=
  (k, v) :: d.filter (fun p => !(p.1 == k))

/-- Lookup in the accumulated form-field map. -/
def lookupField (d : List (String × String)) (k : String) : Option String :=
  (d.find? (fun p => p.1 == k)).map (fun p => p.2)

/-- The form-field map accumulated over the whole part stream. -/
def collectDataGo (d : List (String × String)) : List ReqPart → List (String × String)
  | [] => d
  | ReqPart.field k v :: rest => collectDataGo (setField d k v) rest
  | ReqPart.file _ :: rest => collectDataGo d rest

/-- Hexadecimal digit test for the UUID shape check. -/
def isHexDigit (c : Char) : Bool :=
  c.isDigit || ('a' ≤ c && c ≤ 'f') || ('A' ≤ c && c ≤ 'F')

/-- Split a character list on a separator character. -/
def splitCharOn (sep : Char) : List Char → List (List Char)
  | [] => [[]]
  | c :: rest =>
    let r := splitCharOn sep rest
    if c == sep then [] :: r
    else
      match r with
      | [] => [[c]]
      | g :: gs => (c :: g) :: gs

/-- Model of the zod UUID validator: the canonical 8-4-4-4-12
hex-with-dashes shape. -/
def isUuid (s : String) : Bool :=
  match splitCharOn '-' s.data with
  | [a, b, c, d, e] =>
    a.length == 8 && b.length == 4 && c.length == 4 && d.length == 4 &&
      e.length == 12 && (a ++ b ++ c ++ d ++ e).all isHexDigit
  | _ => false

/-- The validated shared fields (`multipartFieldsSchema`). -/
structure ValidatedFields where
  ownerId : String
  createdBy : String
  folderId : Option String
  status : String
deriving DecidableEq, Repr

/-- Model of `multipartFieldsSchema.safeParse`: `ownerId` and
`createdBy` must be present UUIDs, `folderId` is an optional UUID,
`status` defaults to `ativo` and must otherwise be `ativo` or
`lixeira`.  `none` models a failed parse. -/
def safeParseFields (d : List (String × String)) : Option ValidatedFields :=
  match lookupField d "ownerId" with
  | none => none
  | some owner =>
    if !(isUuid owner) then none
    else
      match lookupField d "createdBy" with
      | none => none
      | some creator =>
        if !(isUuid creator) then none
        else
          match lookupField d "folderId" with
          | some folder =>
            if !(isUuid folder) then none
            else
              match lookupField d "status" with
              | none => some (ValidatedFields.mk owner creator (some folder) "ativo")
              | some st =>
                if st == "ativo" || st == "lixeira" then
                  some (ValidatedFields.mk owner creator (some folder) st)
                else none
          | none =>
            match lookupField d "status" with
            | none => some (ValidatedFields.mk owner creator none "ativo")
            | some st =>
              if st == "ativo" || st == "lixeira" then
                some (ValidatedFields.mk owner creator none st)
              else none

/-- Add a path to the storage backend (set semantics by path). -/
def addPath (fs : List String) (p : String) : List String :=
  if fs.contains p then fs else p :: fs

/-- Remove a path from the storage backend. -/
def removePath (fs : List String) (p : String) : List String :=
  fs.filter (fun q => !(q == p))

/-- Terminal storage state once every started upload has settled: each
admitted task whose storage write succeeds leaves its artifact at its
generated path; a failed write leaves nothing (the provider removes the
partial file, `C5_partial_write_cleanup`). -/
def runUploads (fs : List String) : List FilePart → List String
  | [] => fs
  | t :: rest =>
    runUploads (if t.uploadOk then addPath fs t.genPath else fs) rest

/-- Model of `cleanupUploadedFilesOnValidationFailure`: delete the
artifact of every fulfilled (successfully stored) upload. -/
def cleanupUploadedFilesOnValidationFailure (fs : List String) :
    List FilePart → List String
  | [] => fs
  | t :: rest =>
    cleanupUploadedFilesOnValidationFailure
      (if t.uploadOk then removePath fs t.genPath else fs) rest

/-- One entry of the `results` array of the 200 response. -/
structure ItemResult where
  success : Bool
  recordPath : Option String
  error : Option String
deriving DecidableEq, Repr

/-- Output of `persistSettledUploads`: per-item results plus the final
storage and database states. -/
structure PersistOut where
  results : List ItemResult
  storage : List String
  dbPaths : List String
deriving DecidableEq, Repr

/-- Model of `persistSettledUploads`: for each settled task in order, a
fulfilled upload is inserted into the database (on insert failure its
artifact is deleted as compensation and a per-item failure is produced);
a rejected upload passes through as a per-item failure.  The database is
modelled by the list of storage paths its records reference. -/
def persistSettledUploads (tasks : List FilePart) (fs : List String)
    (dbPaths : List String) : PersistOut :=
  match tasks with
  | [] => PersistOut.mk [] fs dbPaths
  | t :: rest =>
    if t.uploadOk then
      if t.dbOk then
        let r := persistSettledUploads rest fs (dbPaths ++ [t.genPath])
        PersistOut.mk (ItemResult.mk true (some t.genPath) none :: r.results)
          r.storage r.dbPaths
      else
        let r := persistSettledUploads rest (removePath fs t.genPath) dbPaths
        PersistOut.mk
          (ItemResult.mk false none
              (some (fnameOf t ++ ": Erro ao salvar no banco")) :: r.results)
          r.storage r.dbPaths
    else
      let r := persistSettledUploads rest fs dbPaths
      PersistOut.mk
        (ItemResult.mk false none (some (fnameOf t ++ ": Falha no upload")) :: r.results)
        r.storage r.dbPaths

/-- The handler's possible responses. -/
inductive HandlerResponse
  | notMultipart (msg : String)
  | noFiles (msg : String)
  | validationFailed (msg : String)
  | internalError (msg : String)
  | ok (results : List ItemResult) (total successful failed : Nat)
deriving DecidableEq, Repr

/-- Terminal outcome of one bulk-upload request: the HTTP response plus
the storage backend and database state once everything has settled. -/
structure HandlerOutcome where
  response : HandlerResponse
  storage : List String
  dbPaths : List String
deriving DecidableEq, Repr

/-- Model of `multipartUploadHandler`.  `isMultipart` is the transport's
content-type check; `parts` are the parts the wire decoder yields, in
order; `streamErr` says whether the part iteration throws after those
parts (malformed body, client disconnect, or a transport limit such as
the registered `limits.files = 10` being hit), in which case the `catch`
returns a 500 and the uploads already started settle with no cleanup;
`fs0` and `db0` are the initial storage and database states.  The model
accepts any part list, a superset of what the transport can deliver: the
server registering this route configures `@fastify/multipart` with
`limits.files = 10`, so a normally-completing stream holds at most 10
file parts and the over-cap branch of `enforceFileCountLimit` is
unreachable there; theorems that depend on this exactness carry the cap
as a hypothesis (`filePartCount parts ≤ 10`). -/
def multipartUploadHandler (isMultipart : Bool) (parts : List ReqPart)
    (streamErr : Bool) (fs0 db0 : List String) : HandlerOutcome :=
  if !isMultipart then
    HandlerOutcome.mk (HandlerResponse.notMultipart "Request deve ser multipart/form-data")
      fs0 db0
  else
    let collected := collectGo 0 parts
    let tasks := collected.1
    let immediateErrors := collected.2
    let fs1 := runUploads fs0 tasks
    if streamErr then
      HandlerOutcome.mk (HandlerResponse.internalError "Erro interno do servidor") fs1 db0
    else if tasks.isEmpty && immediateErrors.isEmpty then
      HandlerOutcome.mk (HandlerResponse.noFiles "Nenhum arquivo foi enviado") fs1 db0
    else
      match safeParseFields (collectDataGo [] parts) with
      | none =>
        HandlerOutcome.mk (HandlerResponse.validationFailed "Erro de validação")
          (cleanupUploadedFilesOnValidationFailure fs1 tasks) db0
      | some _ =>
        let p := persistSettledUploads tasks fs1 db0
        let results :=
          immediateErrors.map (fun m => ItemResult.mk false none (some m)) ++ p.results
        let successful := (results.filter (fun r => r.success)).length
        HandlerOutcome.mk
          (HandlerResponse.ok results results.length successful
            (results.length - successful))
          p.storage p.dbPaths

/-! ## Supporting lemmas on the handler state model -/

/-- Membership after adding a path. -/
theorem mem_addPath (fs : List String) (q p : String) :
    p ∈ addPath fs q ↔ p ∈ fs ∨ p = q := by
  simp only [addPath]
  by_cases h : fs.contains q = true
  · rw [if_pos h]
    have hq : q ∈ fs := by simpa using h
    constructor
    · exact Or.inl
    · rintro (hp | rfl)
      · exact hp
      · exact hq
  · rw [if_neg h]
    simp only [List.mem_cons]
    tauto

/-- Membership after removing a path. -/
theorem mem_removePath (fs : List String) (q p : String) :
    p ∈ removePath fs q ↔ p ∈ fs ∧ p ≠ q := by
  simp [removePath, List.mem_filter]

/-- Membership in the storage state once all uploads have settled. -/
theorem mem_runUploads (tasks : List FilePart) (fs : List String) (p : String) :
    p ∈ runUploads fs tasks ↔
      p ∈ fs ∨ ∃ t ∈ tasks, t.uploadOk = true ∧ t.genPath = p := by
  induction tasks generalizing fs with
  | nil => simp [runUploads]
  | cons t rest ih =>
    by_cases h : t.uploadOk = true
    · simp only [runUploads, h, if_true, ih, mem_addPath, List.mem_cons]
      constructor
      · rintro ((hp | rfl) | ⟨u, hu, h1, h2⟩)
        · exact Or.inl hp
        · exact Or.inr ⟨t, Or.inl rfl, h, rfl⟩
        · exact Or.inr ⟨u, Or.inr hu, h1, h2⟩
      · rintro (hp | ⟨u, (rfl | hu), h1, h2⟩)
        · exact Or.inl (Or.inl hp)
        · exact Or.inl (Or.inr h2.symm)
        · exact Or.inr ⟨u, hu, h1, h2⟩
    · simp only [runUploads, h, if_false, ih, List.mem_cons]
      constructor
      · rintro (hp | ⟨u, hu, h1, h2⟩)
        · exact Or.inl hp
        · exact Or.inr ⟨u, Or.inr hu, h1, h2⟩
      · rintro (hp | ⟨u, (rfl | hu), h1, h2⟩)
        · exact Or.inl hp
        · exact absurd h1 h
        · exact Or.inr ⟨u, hu, h1, h2⟩

/-- Membership in the storage state after the validation-failure
cleanup: a path survives exactly when it was there and is not the
artifact of any fulfilled upload. -/
theorem mem_cleanup (tasks : List FilePart) (fs : List String) (p : String) :
    p ∈ cleanupUploadedFilesOnValidationFailure fs tasks ↔
      p ∈ fs ∧ ¬∃ t ∈ tasks, t.uploadOk = true ∧ t.genPath = p := by
  induction tasks generalizing fs with
  | nil => simp [cleanupUploadedFilesOnValidationFailure]
  | cons t rest ih =>
    by_cases h : t.uploadOk = true
    · simp only [cleanupUploadedFilesOnValidationFailure, h, if_true, ih,
        mem_removePath, List.mem_cons]
      constructor
      · rintro ⟨⟨hp, hne⟩, hnex⟩
        refine ⟨hp, ?_⟩
        rintro ⟨u, (rfl | hu), h1, h2⟩
        · exact hne h2.symm
        · exact hnex ⟨u, hu, h1, h2⟩
      · rintro ⟨hp, hnex⟩
        refine ⟨⟨hp, ?_⟩, ?_⟩
        · intro hpe
          exact hnex ⟨t, Or.inl rfl, h, hpe.symm⟩
        · rintro ⟨u, hu, h1, h2⟩
          exact hnex ⟨u, Or.inr hu, h1, h2⟩
    · simp only [cleanupUploadedFilesOnValidationFailure, h, if_false, ih, List.mem_cons]
      constructor
      · rintro ⟨hp, hnex⟩
        refine ⟨hp, ?_⟩
        rintro ⟨u, (rfl | hu), h1, h2⟩
        · exact h h1
        · exact hnex ⟨u, hu, h1, h2⟩
      · rintro ⟨hp, hnex⟩
        refine ⟨hp, ?_⟩
        rintro ⟨u, hu, h1, h2⟩
        exact hnex ⟨u, Or.inr hu, h1, h2⟩

/-- Persistence only ever shrinks the storage state, and never deletes a
path other than the artifact of a fulfilled upload whose insert failed. -/
theorem persist_storage_mem (tasks : List FilePart) (fs dbPaths : List String)
    (p : String) (hp : p ∈ (persistSettledUploads tasks fs dbPaths).storage) :
    p ∈ fs ∧ ∀ t ∈ tasks, t.uploadOk = true → t.dbOk = false → t.genPath ≠ p := by
  induction tasks generalizing fs dbPaths with
  | nil =>
    simp only [persistSettledUploads] at hp
    exact ⟨hp, by simp⟩
  | cons t rest ih =>
    by_cases hu : t.uploadOk = true
    · by_cases hd : t.dbOk = true
      · simp only [persistSettledUploads, hu, hd, if_true] at hp
        obtain ⟨h1, h2⟩ := ih _ _ hp
        refine ⟨h1, ?_⟩
        intro u hmemu hu2 hd2
        rcases List.mem_cons.mp hmemu with rfl | hmem
        · rw [hd] at hd2
          exact absurd hd2 (by simp)
        · exact h2 u hmem hu2 hd2
      · simp only [persistSettledUploads, hu, hd, if_true, if_false] at hp
        obtain ⟨h1, h2⟩ := ih _ _ hp
        rw [mem_removePath] at h1
        refine ⟨h1.1, ?_⟩
        intro u hmemu hu2 hd2
        rcases List.mem_cons.mp hmemu with rfl | hmem
        · exact fun hgp => h1.2 hgp.symm
        · exact h2 u hmem hu2 hd2
    · simp only [persistSettledUploads, hu, if_false] at hp
      obtain ⟨h1, h2⟩ := ih _ _ hp
      refine ⟨h1, ?_⟩
      intro u hmemu hu2 hd2
      rcases List.mem_cons.mp hmemu with rfl | hmem
      · exact absurd hu2 hu
      · exact h2 u hmem hu2 hd2

/-- Records present before persistence are still present afterwards. -/
theorem persist_db_mono (tasks : List FilePart) (fs dbPaths : List String)
    (p : String) (hp : p ∈ dbPaths) :
    p ∈ (persistSettledUploads tasks fs dbPaths).dbPaths := by
  induction tasks generalizing fs dbPaths with
  | nil => simpa [persistSettledUploads] using hp
  | cons t rest ih =>
    by_cases hu : t.uploadOk = true
    · by_cases hd : t.dbOk = true
      · simp only [persistSettledUploads, hu, hd, if_true]
        exact ih _ _ (by simp [hp])
      · simp only [persistSettledUploads, hu, hd, if_true, if_false]
        exact ih _ _ hp
    · simp only [persistSettledUploads, hu, if_false]
      exact ih _ _ hp

/-- Every fulfilled upload whose insert succeeds ends up with a database
record referencing its storage path. -/
theorem persist_db_mem_of_task (tasks : List FilePart) (fs dbPaths : List String)
    (t : FilePart) (ht : t ∈ tasks) (hu : t.uploadOk = true) (hd : t.dbOk = true) :
    t.genPath ∈ (persistSettledUploads tasks fs dbPaths).dbPaths := by
  induction tasks generalizing fs dbPaths with
  | nil => cases ht
  | cons u rest ih =>
    rcases List.mem_cons.mp ht with rfl | hmem
    · simp only [persistSettledUploads, hu, hd, if_true]
      exact persist_db_mono _ _ _ _ (by simp)
    · by_cases hu2 : u.uploadOk = true
      · by_cases hd2 : u.dbOk = true
        · simp only [persistSettledUploads, hu2, hd2, if_true]
          exact ih _ _ hmem
        · simp only [persistSettledUploads, hu2, hd2, if_true, if_false]
          exact ih _ _ hmem
      · simp only [persistSettledUploads, hu2, if_false]
        exact ih _ _ hmem

/-- Persistence produces exactly one item result per settled task. -/
theorem persist_results_length (tasks : List FilePart) (fs dbPaths : List String) :
    (persistSettledUploads tasks fs dbPaths).results.length = tasks.length := by
  induction tasks generalizing fs dbPaths with
  | nil => rfl
  | cons t rest ih =>
    by_cases hu : t.uploadOk = true
    · by_cases hd : t.dbOk = true
      · simp [persistSettledUploads, hu, hd, ih]
      · simp [persistSettledUploads, hu, hd, ih]
    · simp [persistSettledUploads, hu, ih]

/-! ## Claim C2 — no orphaned artifacts in terminal states -/

/-- Counterexample to claim C2 as stated: when the multipart iteration
throws after one file part has already been admitted and durably stored
(client disconnect or malformed body), the handler's `catch` returns a
terminal 500 response without any compensation: the batch's stored
artifact `p0` remains in the storage backend while the database holds no
record referencing it and no deletion was issued. -/
theorem C2_counterexample_stream_error_orphan :
    (multipartUploadHandler true
        [ReqPart.file (FilePart.mk (some "a.png") "image/png" false 0 100 true "p0" 1 true)]
        true [] []).response = HandlerResponse.internalError "Erro interno do servidor" ∧
    "p0" ∈ (multipartUploadHandler true
        [ReqPart.file (FilePart.mk (some "a.png") "image/png" false 0 100 true "p0" 1 true)]
        true [] []).storage ∧
    (multipartUploadHandler true
        [ReqPart.file (FilePart.mk (some "a.png") "image/png" false 0 100 true "p0" 1 true)]
        true [] []).dbPaths = [] := by
  decide

/-- Amended C2: in every terminal state reached with the part stream
fully consumed (the 400 responses and the 200 response), every artifact
in the storage backend either predates the batch or is referenced by a
persisted metadata record; only the 500 path taken when the part
iteration itself throws can leave a stored artifact unaccounted for. -/
theorem C2_no_orphans_when_stream_completes (mp : Bool) (parts : List ReqPart)
    (fs0 db0 : List String) (p : String)
    (hp : p ∈ (multipartUploadHandler mp parts false fs0 db0).storage) :
    p ∈ fs0 ∨ p ∈ (multipartUploadHandler mp parts false fs0 db0).dbPaths := by
  by_cases hmp : mp = true
  · subst hmp
    by_cases hempty :
        ((collectGo 0 parts).1.isEmpty && (collectGo 0 parts).2.isEmpty) = true
    · have htasks : (collectGo 0 parts).1 = [] :=
        List.isEmpty_iff.mp (Bool.and_elim_left hempty)
      have hsto : (multipartUploadHandler true parts false fs0 db0).storage =
          runUploads fs0 (collectGo 0 parts).1 := by
        simp [multipartUploadHandler, hempty]
      rw [hsto, htasks] at hp
      exact Or.inl hp
    · cases hv : safeParseFields (collectDataGo [] parts) with
      | none =>
        have hsto : (multipartUploadHandler true parts false fs0 db0).storage =
            cleanupUploadedFilesOnValidationFailure
              (runUploads fs0 (collectGo 0 parts).1) (collectGo 0 parts).1 := by
          simp [multipartUploadHandler, hempty, hv]
        rw [hsto, mem_cleanup] at hp
        rcases (mem_runUploads _ _ _).mp hp.1 with hfs | hex
        · exact Or.inl hfs
        · exact absurd hex hp.2
      | some fields =>
        have hsto : (multipartUploadHandler true parts false fs0 db0).storage =
            (persistSettledUploads (collectGo 0 parts).1
              (runUploads fs0 (collectGo 0 parts).1) db0).storage := by
          simp [multipartUploadHandler, hempty, hv]
        have hdb : (multipartUploadHandler true parts false fs0 db0).dbPaths =
            (persistSettledUploads (collectGo 0 parts).1
              (runUploads fs0 (collectGo 0 parts).1) db0).dbPaths := by
          simp [multipartUploadHandler, hempty, hv]
        rw [hsto] at hp
        obtain ⟨h1, h2⟩ := persist_storage_mem _ _ _ _ hp
        rcases (mem_runUploads _ _ _).mp h1 with hfs | ⟨t, ht, hu, hgp⟩
        · exact Or.inl hfs
        · by_cases hd : t.dbOk = true
          · subst hgp
            rw [hdb]
            exact Or.inr (persist_db_mem_of_task _ _ _ _ ht hu hd)
          · exact absurd hgp (h2 t ht hu (by simpa using hd))
  · have hmp2 : mp = false := by
      cases mp
      · rfl
      · exact absurd rfl hmp
    subst hmp2
    have hsto : (multipartUploadHandler false parts false fs0 db0).storage = fs0 := by
      simp [multipartUploadHandler]
    rw [hsto] at hp
    exact Or.inl hp

/-- Witness for the amended C2 at a concrete input: one fully successful
file part; its artifact is in storage and the conclusion places it among
the database records. -/
theorem C2_no_orphans_when_stream_completes_witness :
    "p0" ∈ ([] : List String) ∨
      "p0" ∈ (multipartUploadHandler true
          [ReqPart.field "ownerId" "123e4567-e89b-12d3-a456-426614174000",
           ReqPart.field "createdBy" "223e4567-e89b-12d3-a456-426614174000",
           ReqPart.file (FilePart.mk (some "a.png") "image/png" false 0 100 true "p0" 1 true)]
          false [] []).dbPaths :=
  C2_no_orphans_when_stream_completes true
    [ReqPart.field "ownerId" "123e4567-e89b-12d3-a456-426614174000",
     ReqPart.field "createdBy" "223e4567-e89b-12d3-a456-426614174000",
     ReqPart.file (FilePart.mk (some "a.png") "image/png" false 0 100 true "p0" 1 true)]
    [] [] "p0" (by decide)

/-! ## Claim C3 — shared-field validation failure is all-or-nothing -/

/-- Claim C3: when the part stream has been fully consumed, at least one
file part produced a task or an immediate error, and the shared-field
validation fails, the handler answers with the single batch-level 400
validation failure (no per-item results, so no successful item), and no
artifact stored for the batch remains in the storage backend. -/
theorem C3_validation_failure_cleanup (parts : List ReqPart) (fs0 db0 : List String)
    (hv : safeParseFields (collectDataGo [] parts) = none)
    (hne : ((collectGo 0 parts).1.isEmpty && (collectGo 0 parts).2.isEmpty) = false) :
    (multipartUploadHandler true parts false fs0 db0).response =
      HandlerResponse.validationFailed "Erro de validação" ∧
    ∀ t ∈ (collectGo 0 parts).1, t.uploadOk = true →
      t.genPath ∉ (multipartUploadHandler true parts false fs0 db0).storage := by
  have hresp : (multipartUploadHandler true parts false fs0 db0).response =
      HandlerResponse.validationFailed "Erro de validação" := by
    simp [multipartUploadHandler, hne, hv]
  have hsto : (multipartUploadHandler true parts false fs0 db0).storage =
      cleanupUploadedFilesOnValidationFailure
        (runUploads fs0 (collectGo 0 parts).1) (collectGo 0 parts).1 := by
    simp [multipartUploadHandler, hne, hv]
  refine ⟨hresp, ?_⟩
  intro t ht hu hmem
  rw [hsto, mem_cleanup] at hmem
  exact hmem.2 ⟨t, ht, hu, rfl⟩

/-- Witness for C3 at a concrete input: a stored file part plus an
invalid `ownerId` field; the response is the batch-level validation
failure and the artifact `p0` has been deleted. -/
theorem C3_validation_failure_cleanup_witness :
    (multipartUploadHandler true
        [ReqPart.field "ownerId" "not-a-uuid",
         ReqPart.file (FilePart.mk (some "a.png") "image/png" false 0 100 true "p0" 1 true)]
        false [] []).response = HandlerResponse.validationFailed "Erro de validação" ∧
    "p0" ∉ (multipartUploadHandler true
        [ReqPart.field "ownerId" "not-a-uuid",
         ReqPart.file (FilePart.mk (some "a.png") "image/png" false 0 100 true "p0" 1 true)]
        false [] []).storage := by
  have h := C3_validation_failure_cleanup
    [ReqPart.field "ownerId" "not-a-uuid",
     ReqPart.file (FilePart.mk (some "a.png") "image/png" false 0 100 true "p0" 1 true)]
    [] [] (by decide) (by decide)
  exact ⟨h.1,
    h.2 (FilePart.mk (some "a.png") "image/png" false 0 100 true "p0" 1 true)
      (by decide) rfl⟩

/-! ## Claim C4 — item-count conservation -/

/-- Number of file parts carrying a (truthy) file name. -/
def namedFilePartCount : List ReqPart → Nat
  | [] => 0
  | ReqPart.field _ _ :: rest => namedFilePartCount rest
  | ReqPart.file f :: rest =>
    (if hasName f then 1 else 0) + namedFilePartCount rest

/-- Total number of file parts, named or not. -/
def filePartCount : List ReqPart → Nat
  | [] => 0
  | ReqPart.field _ _ :: rest => filePartCount rest
  | ReqPart.file _ :: rest => 1 + filePartCount rest

/-- On a stream the transport can actually deliver — the server that
registers the bulk route configures `@fastify/multipart` with
`limits.files = 10`, so at most 10 file parts are ever yielded (an
11th makes the part iteration throw the files-limit error instead,
the `streamErr` case) — the collection loop accounts one task or one
immediate error for exactly every named file part: the admitted-file
count cannot reach the 10-file cap while a file part is still pending,
so the over-cap branch of `enforceFileCountLimit` never fires and every
nameless file part is silently dropped. -/
theorem collect_named (parts : List ReqPart) : ∀ fileCount : Nat,
    fileCount + filePartCount parts ≤ 10 →
    (collectGo fileCount parts).1.length + (collectGo fileCount parts).2.length =
      namedFilePartCount parts := by
  induction parts with
  | nil =>
    intro fc hfc
    rfl
  | cons part rest ih =>
    intro fc hfc
    cases part with
    | field k v =>
      simpa [collectGo, namedFilePartCount] using
        ih fc (by simpa [filePartCount] using hfc)
    | file f =>
      have hfc2 : fc + (1 + filePartCount rest) ≤ 10 := by
        simpa [filePartCount] using hfc
      have h10 : ¬10 ≤ fc := by omega
      by_cases hn : hasName f = true
      · by_cases htr : f.truncated = true
        · have := ih fc (by omega)
          simp [collectGo, namedFilePartCount, classifyFilePart, h10, hn, htr]
          omega
        · by_cases hal : validateFileType f.mimetype ALLOWED_FILE_TYPES = true
          · have := ih (fc + 1) (by omega)
            simp [collectGo, namedFilePartCount, classifyFilePart, h10, hn, htr, hal]
            omega
          · have := ih fc (by omega)
            simp [collectGo, namedFilePartCount, classifyFilePart, h10, hn, htr, hal]
            omega
      · have := ih fc (by omega)
        simp [collectGo, namedFilePartCount, classifyFilePart, h10, hn]
        omega

/-- Claim C4: in every 200 bulk-upload response to a stream the
transport can deliver (at most 10 file parts, per the registered
`limits.files = 10`), `summary.total` equals
`summary.successful + summary.failed` and equals the number of file
parts with a non-empty file name that reached the handler; file parts
without a file name are silently dropped, produce no per-item result,
and are not counted. -/
theorem C4_item_count_conservation (mp : Bool) (parts : List ReqPart)
    (fs0 db0 : List String) (results : List ItemResult) (t s f : Nat)
    (hcap : filePartCount parts ≤ 10)
    (h : (multipartUploadHandler mp parts false fs0 db0).response =
      HandlerResponse.ok results t s f) :
    t = s + f ∧ t = namedFilePartCount parts := by
  by_cases hmp : mp = true
  · subst hmp
    by_cases hempty :
        ((collectGo 0 parts).1.isEmpty && (collectGo 0 parts).2.isEmpty) = true
    · have : (multipartUploadHandler true parts false fs0 db0).response =
          HandlerResponse.noFiles "Nenhum arquivo foi enviado" := by
        simp [multipartUploadHandler, hempty]
      rw [this] at h
      cases h
    · cases hv : safeParseFields (collectDataGo [] parts) with
      | none =>
        have : (multipartUploadHandler true parts false fs0 db0).response =
            HandlerResponse.validationFailed "Erro de validação" := by
          simp [multipartUploadHandler, hempty, hv]
        rw [this] at h
        cases h
      | some fields =>
        have hresp : (multipartUploadHandler true parts false fs0 db0).response =
            HandlerResponse.ok
              ((collectGo 0 parts).2.map
                  (fun m => ItemResult.mk false none (some m)) ++
                (persistSettledUploads (collectGo 0 parts).1
                  (runUploads fs0 (collectGo 0 parts).1) db0).results)
              ((collectGo 0 parts).2.map
                  (fun m => ItemResult.mk false none (some m)) ++
                (persistSettledUploads (collectGo 0 parts).1
                  (runUploads fs0 (collectGo 0 parts).1) db0).results).length
              (((collectGo 0 parts).2.map
                  (fun m => ItemResult.mk false none (some m)) ++
                (persistSettledUploads (collectGo 0 parts).1
                  (runUploads fs0 (collectGo 0 parts).1) db0).results).filter
                  (fun r => r.success)).length
              (((collectGo 0 parts).2.map
                  (fun m => ItemResult.mk false none (some m)) ++
                (persistSettledUploads (collectGo 0 parts).1
                  (runUploads fs0 (collectGo 0 parts).1) db0).results).length -
                (((collectGo 0 parts).2.map
                  (fun m => ItemResult.mk false none (some m)) ++
                (persistSettledUploads (collectGo 0 parts).1
                  (runUploads fs0 (collectGo 0 parts).1) db0).results).filter
                  (fun r => r.success)).length) := by
          simp [multipartUploadHandler, hempty, hv]
        rw [hresp] at h
        injection h with h1 h2 h3 h4
        subst h1 h2 h3 h4
        constructor
        · have hle := List.length_filter_le (fun r => r.success)
            ((collectGo 0 parts).2.map (fun m => ItemResult.mk false none (some m)) ++
              (persistSettledUploads (collectGo 0 parts).1
                (runUploads fs0 (collectGo 0 parts).1) db0).results)
          omega
        · rw [List.length_append, List.length_map, persist_results_length]
          rw [← collect_named parts 0 (by omega)]
          omega
  · have hmp2 : mp = false := by
      cases mp
      · rfl
      · exact absurd rfl hmp
    subst hmp2
    have : (multipartUploadHandler false parts false fs0 db0).response =
        HandlerResponse.notMultipart "Request deve ser multipart/form-data" := by
      simp [multipartUploadHandler]
    rw [this] at h
    cases h

/-- Witness for C4 at a concrete input: two valid fields and one valid
file part (within the 10-file transport cap) give a 200 response with
`total = successful + failed = 1`, matching the single named file part. -/
theorem C4_item_count_conservation_witness :
    1 = 1 + 0 ∧
    1 = namedFilePartCount
        [ReqPart.field "ownerId" "123e4567-e89b-12d3-a456-426614174000",
         ReqPart.field "createdBy" "223e4567-e89b-12d3-a456-426614174000",
         ReqPart.file (FilePart.mk (some "a.png") "image/png" false 0 100 true "p0" 1 true)] :=
  C4_item_count_conservation true
    [ReqPart.field "ownerId" "123e4567-e89b-12d3-a456-426614174000",
     ReqPart.field "createdBy" "223e4567-e89b-12d3-a456-426614174000",
     ReqPart.file (FilePart.mk (some "a.png") "image/png" false 0 100 true "p0" 1 true)]
    [] [] [ItemResult.mk true (some "p0") none] 1 1 0 (by decide) (by decide)


/-! ## Timed model of the upload task gate (`createUploadTaskFromPart`) -/

/-- The concurrency constant of `collectMultipartParts`. -/
def MAX_CONCURRENT_UPLOADS : Nat := 3

/-- Minimum of a list with a default for the empty list (the settlement
of `Promise.race` over a non-empty snapshot of in-flight promises). -/
def listMinD : List Nat → Nat → Nat
  | [], d => d
  | h :: t, _ => t.foldl Nat.min h

/-- One admitted upload task with its observable instants: `startTime`
is when the storage write begins, `storeEnd` when the write settles, and
`settleTime` when the gated wrapper promise settles. -/
structure TimedTask where
  name : String
  startTime : Nat
  storeEnd : Nat
  settleTime : Nat
deriving DecidableEq, Repr

/-- Timed model of the collection loop.  For every admitted file part,
`handleFilePart` invokes `uploadService.uploadFile(part)` synchronously,
so the storage write starts at the part's arrival and settles after its
duration.  `createUploadTaskFromPart` then builds the wrapper: when the
in-flight set (earlier wrappers not yet settled at this arrival — a
settled wrapper removes itself via its `finally` callback) holds at
least `MAX_CONCURRENT_UPLOADS` promises, the gate is `Promise.race` over
that snapshot, so the wrapper settles no earlier than the first
settlement among the snapshot and no earlier than its own store; below
the threshold the gate is already resolved.  The gate is created after
the upload promise, so it delays only the wrapper's settlement, never
the start of the write. -/
def collectTimed (fileCount : Nat) (inflightSettles : List Nat) :
    List ReqPart → List TimedTask
  | [] => []
  | ReqPart.field _ _ :: rest => collectTimed fileCount inflightSettles rest
  | ReqPart.file f :: rest =>
    match classifyFilePart fileCount f with
    | Admission.admitted =>
      let a := f.arrival
      let o := a + f.duration
      let inflight := inflightSettles.filter (fun w => a < w)
      let g := if MAX_CONCURRENT_UPLOADS ≤ inflight.length then listMinD inflight a else a
      let w := Nat.max g o
      TimedTask.mk (fnameOf f) a o w ::
        collectTimed (fileCount + 1) (w :: inflightSettles) rest
    | _ => collectTimed fileCount inflightSettles rest

/-- Number of storage writes executing at instant `t`. -/
def storesInFlightAt (tasks : List TimedTask) (t : Nat) : Nat :=
  (tasks.filter (fun tk => tk.startTime ≤ t && t < tk.storeEnd)).length

/-- Claim C1 evaluated at its failing input: four valid file parts
arriving at instants 0, 1, 2 and 3 whose storage writes each take 100
time units.  All four are admitted and each write starts at its part's
arrival, so at instant 3 four storage writes execute simultaneously —
exceeding `MAX_CONCURRENT_UPLOADS = 3`.  The gate never blocks the
fourth admission; it merely postpones the settlement of that task's
wrapper promise. -/
theorem C1_concurrency_ceiling_violated :
    storesInFlightAt
        (collectTimed 0 []
          [ReqPart.file (FilePart.mk (some "a.png") "image/png" false 0 100 true "pa" 1 true),
           ReqPart.file (FilePart.mk (some "b.png") "image/png" false 1 100 true "pb" 1 true),
           ReqPart.file (FilePart.mk (some "c.png") "image/png" false 2 100 true "pc" 1 true),
           ReqPart.file (FilePart.mk (some "d.png") "image/png" false 3 100 true "pd" 1 true)])
        3 = 4 ∧
    MAX_CONCURRENT_UPLOADS = 3 := by
  decide
